import Mathlib

/-!
Verification of the gccjit.rs binding library (a lifetime-checked Rust wrapper
over the libgccjit C API) against its natural-language specification.

The Rust sources are shallowly embedded: each wrapper function is translated
into a Lean function over explicit state; raw C pointers become natural-number
handles (0 is the NULL pointer); Rust panics become `Except.error`; the opaque
libgccjit backend is modelled only where a claim needs its documented contract,
and such definitions say so in their doc comment.
-/

namespace GccjitProof

/-- BinaryOp from src/src/block.rs (lines 20-34): the binary operations the
binding can ask the backend to codegen. -/
inductive BinaryOp
  | Plus
  | Minus
  | Mult
  | Divide
  | Modulo
  | BitwiseAnd
  | BitwiseXor
  | BitwiseOr
  | LogicalAnd
  | LogicalOr
  | LShift
  | RShift
deriving DecidableEq

/-- Shape of a gccjit type descriptor, as constructible through the binding
(src/src/types.rs and the type constructors of src/src/context.rs):
primitives, exact-width integers, pointers, qualified types, arrays,
structs, unions, vectors and function-pointer types. -/
inductive GType
  | void
  | boolT
  | charT
  | floatT
  | doubleT
  | sizeT
  | intT (bytes : Nat) (signed : Bool)
  | ptr (pointee : GType)
  | constOf (t : GType)
  | volatileOf (t : GType)
  | alignedOf (t : GType) (bytes : Nat)
  | arrayT (elem : GType) (len : Int)
  | structT (id : Nat) (name : String)
  | unionT (id : Nat) (name : String)
  | vectorT (elem : GType) (units : Nat)
  | fnPtrT (ret : GType) (params : List GType) (variadic : Bool)

/-- Handle to a struct as returned by the struct introspection view
(the Rust `Struct` is a pointer wrapper; we carry the identifying data). -/
structure StructRef where
  id : Nat
  name : String

/-- Handle to a vector type view (Rust `VectorType`, src/src/types.rs 23-48). -/
structure VectorTypeRef where
  elem : GType
  units : Nat

/-- Handle to a function-pointer type view (Rust `FunctionPtrType`,
src/src/types.rs 50-81). -/
structure FunctionPtrTypeRef where
  ret : GType
  params : List GType
  variadic : Bool

/-- Modelled from the spec: backend `gcc_jit_type_is_array` (named
`gcc_jit_type_dyncast_array` in src/gccjit_sys) returns the element type
of an array type, and NULL for any other type. NULL is rendered as `none`. -/
def gccJitTypeIsArray : GType → Option GType
  | .arrayT elem _ => some elem
  | _ => none

/-- Modelled from the spec: backend `gcc_jit_type_is_bool` returns non-zero
exactly on the C bool type. -/
def gccJitTypeIsBool : GType → Int
  | .boolT => 1
  | _ => 0

/-- Modelled from the spec: backend `gcc_jit_type_is_integral` returns non-zero
on the integral types (bool, char, the exact-width integer types, size_t). -/
def gccJitTypeIsIntegral : GType → Int
  | .boolT => 1
  | .charT => 1
  | .sizeT => 1
  | .intT _ _ => 1
  | _ => 0

/-- Modelled from the spec: backend `gcc_jit_type_is_vector` (sys name
`gcc_jit_type_dyncast_vector`) returns the vector-type view, NULL otherwise. -/
def gccJitTypeIsVector : GType → Option VectorTypeRef
  | .vectorT elem units => some ⟨elem, units⟩
  | _ => none

/-- Modelled from the spec: backend `gcc_jit_type_is_struct` returns the
struct view, NULL otherwise (unions and all other kinds give NULL). -/
def gccJitTypeIsStruct : GType → Option StructRef
  | .structT id name => some ⟨id, name⟩
  | _ => none

/-- Modelled from the spec: backend `gcc_jit_type_is_function_ptr_type`
(sys name `gcc_jit_type_dyncast_function_ptr_type`) returns the
function-pointer-type view, NULL otherwise. -/
def gccJitTypeIsFunctionPtrType : GType → Option FunctionPtrTypeRef
  | .fnPtrT ret params variadic => some ⟨ret, params, variadic⟩
  | _ => none

/-- Modelled from the spec: backend `gcc_jit_type_is_pointer` returns the
pointee type of a pointer type, NULL otherwise. -/
def gccJitTypeIsPointer : GType → Option GType
  | .ptr pointee => some pointee
  | _ => none

/-- Rust `Type::is_array` (src/src/types.rs 128-136): calls the backend,
checks the returned pointer for NULL, and wraps the non-NULL case in `Some`. -/
def GType.is_array (t : GType) : Option GType :=
  match gccJitTypeIsArray t with
  | none => none
  | some arrayType => some arrayType

/-- Rust `Type::is_bool` (src/src/types.rs 138-142): backend result `!= 0`. -/
def GType.is_bool (t : GType) : Bool :=
  gccJitTypeIsBool t != 0

/-- Rust `Type::is_integral` (src/src/types.rs 144-148): backend result `!= 0`. -/
def GType.is_integral (t : GType) : Bool :=
  gccJitTypeIsIntegral t != 0

/-- Rust `Type::is_vector` (src/src/types.rs 150-158). -/
def GType.is_vector (t : GType) : Option VectorTypeRef :=
  match gccJitTypeIsVector t with
  | none => none
  | some vectorType => some vectorType

/-- Rust `Type::is_struct` (src/src/types.rs 160-168). -/
def GType.is_struct (t : GType) : Option StructRef :=
  match gccJitTypeIsStruct t with
  | none => none
  | some structType => some structType

/-- Rust `Type::is_function_ptr_type` (src/src/types.rs 170-178). -/
def GType.is_function_ptr_type (t : GType) : Option FunctionPtrTypeRef :=
  match gccJitTypeIsFunctionPtrType t with
  | none => none
  | some functionPtrType => some functionPtrType

/-- Rust `Type::get_pointee` (src/src/types.rs 186-194). -/
def GType.get_pointee (t : GType) : Option GType :=
  match gccJitTypeIsPointer t with
  | none => none
  | some value => some value

/-- C5: for every Type handle, `is_struct`, `is_vector`, `is_array`,
`is_function_ptr_type` and `get_pointee` return the richer matching view
exactly when the type is of that kind and an explicit `none` otherwise,
while `is_bool` and `is_integral` return booleans characterising their kind. -/
theorem type_introspection_optional (t : GType) :
    (∀ i n, t = GType.structT i n → t.is_struct = some ⟨i, n⟩)
    ∧ (t.is_struct = none ↔ ∀ i n, t ≠ GType.structT i n)
    ∧ (∀ e u, t = GType.vectorT e u → t.is_vector = some ⟨e, u⟩)
    ∧ (t.is_vector = none ↔ ∀ e u, t ≠ GType.vectorT e u)
    ∧ (∀ e l, t = GType.arrayT e l → t.is_array = some e)
    ∧ (t.is_array = none ↔ ∀ e l, t ≠ GType.arrayT e l)
    ∧ (∀ r p v, t = GType.fnPtrT r p v → t.is_function_ptr_type = some ⟨r, p, v⟩)
    ∧ (t.is_function_ptr_type = none ↔ ∀ r p v, t ≠ GType.fnPtrT r p v)
    ∧ (∀ p, t = GType.ptr p → t.get_pointee = some p)
    ∧ (t.get_pointee = none ↔ ∀ p, t ≠ GType.ptr p)
    ∧ (t.is_bool = true ↔ t = GType.boolT)
    ∧ (t.is_integral = true ↔
        (t = GType.boolT ∨ t = GType.charT ∨ t = GType.sizeT ∨ ∃ b s, t = GType.intT b s)) := by
  cases t <;>
    simp [GType.is_struct, GType.is_vector, GType.is_array, GType.is_function_ptr_type,
      GType.get_pointee, GType.is_bool, GType.is_integral, gccJitTypeIsStruct,
      gccJitTypeIsVector, gccJitTypeIsArray, gccJitTypeIsFunctionPtrType,
      gccJitTypeIsPointer, gccJitTypeIsBool, gccJitTypeIsIntegral]

/-- Witness for C5: concrete evaluations of the introspectors obtained by
applying `type_introspection_optional` at a pointer type and an array type. -/
theorem type_introspection_optional_witness :
    (GType.ptr GType.boolT).get_pointee = some GType.boolT
    ∧ (GType.arrayT GType.charT 4).is_array = some GType.charT := by
  refine ⟨?_, ?_⟩
  · exact (type_introspection_optional (GType.ptr GType.boolT)).2.2.2.2.2.2.2.2.1
      GType.boolT rfl
  · exact (type_introspection_optional (GType.arrayT GType.charT 4)).2.2.2.2.1
      GType.charT 4 rfl

/-! Handle model: the Rust wrapper structs `RValue`, `LValue`, `Object` and
`Parameter` each hold exactly one datum, the raw pointer to the backend IR
entity (plus a zero-sized lifetime marker).  We embed the pointer as a `Nat`. -/

/-- Rust `RValue` (src/src/rvalue.rs 23-27): a wrapper around the raw
`gcc_jit_rvalue` pointer. -/
structure RValueH where
  ptr : Nat

/-- Rust `LValue` (src/src/lvalue.rs 19-23): a wrapper around the raw
`gcc_jit_lvalue` pointer. -/
structure LValueH where
  ptr : Nat

/-- Rust `Object` (src/src/object.rs 11-15): a wrapper around the raw
`gcc_jit_object` pointer. -/
structure ObjectH where
  ptr : Nat

/-- Rust `Parameter` (src/src/parameter.rs 14-18): a wrapper around the raw
`gcc_jit_param` pointer. -/
structure ParameterH where
  ptr : Nat

/-- Rust `impl ToRValue for RValue` (src/src/rvalue.rs 50-54): the body is
`from_ptr(self.ptr)`, rebuilding a handle around the very same pointer with
no backend call and no allocation. -/
def RValueH.to_rvalue (r : RValueH) : RValueH :=
  { ptr := r.ptr }

/-- Rust `impl ToLValue for LValue` (src/src/lvalue.rs 46-50): the body is
`from_ptr(self.ptr)`. -/
def LValueH.to_lvalue (l : LValueH) : LValueH :=
  { ptr := l.ptr }

/-- Rust `impl ToObject for Object` (src/src/object.rs 33-37): the body is
`from_ptr(self.ptr)`. -/
def ObjectH.to_object (o : ObjectH) : ObjectH :=
  { ptr := o.ptr }

/-- C9: coercing a handle to its own kind is the identity on the handle, so
it denotes the same underlying IR entity, is idempotent, and (taking no
context or arena argument) cannot allocate a new IR node. -/
theorem self_coercion_identity (r : RValueH) (l : LValueH) (o : ObjectH) :
    r.to_rvalue = r ∧ l.to_lvalue = l ∧ o.to_object = o
    ∧ r.to_rvalue.to_rvalue = r.to_rvalue
    ∧ l.to_lvalue.to_lvalue = l.to_lvalue
    ∧ o.to_object.to_object = o.to_object :=
  ⟨rfl, rfl, rfl, rfl, rfl, rfl⟩

/-! Operator-overload sugar (C8).  The `binary_operator_for!` macro in
src/src/rvalue.rs 56-90 expands, for each of the ten overloaded operators,
to a method that reads the right-hand side's type and asks the context for a
binary-op node with that result type.  Here an `RValue` node is embedded
together with the data the backend stores for it: its type and expression. -/

/-- Expression shape of an rvalue node as built through the binding. -/
inductive RExprS
  | leaf (id : Nat)
  | binop (op : BinaryOp) (lhs rhs : RExprS)

/-- An rvalue node with the data the backend records for it: the node type
(readable back through `gcc_jit_rvalue_get_type`) and its expression. -/
structure RValueS where
  ty : GType
  expr : RExprS

/-- Rust `RValue::get_type` (src/src/rvalue.rs 92-99): reads the node type
via `gcc_jit_rvalue_get_type`. -/
def RValueS.get_type (r : RValueS) : GType :=
  r.ty

/-- Modelled from the spec: backend `gcc_jit_context_new_binary_op` builds a
binary-operation rvalue node whose recorded type is the `ty` argument the
caller passed (the spec: the explicit constructor takes an explicit result
type). -/
def gccJitContextNewBinaryOp (op : BinaryOp) (ty : GType) (lhs rhs : RValueS) : RValueS :=
  { ty := ty, expr := RExprS.binop op lhs.expr rhs.expr }

/-- Expansion of `binary_operator_for!` shared body
(src/src/rvalue.rs 61-74): `let ty = rhs.get_type()` then
`gcc_jit_context_new_binary_op(ctx, NULL, op, ty, self, rhs)`. -/
def binarySugar (op : BinaryOp) (lhs rhs : RValueS) : RValueS :=
  gccJitContextNewBinaryOp op rhs.get_type lhs rhs

/-- Rust `impl Add for RValue` (src/src/rvalue.rs 81). -/
def RValueS.add (a b : RValueS) : RValueS := binarySugar BinaryOp.Plus a b

/-- Rust `impl Sub for RValue` (src/src/rvalue.rs 82). -/
def RValueS.sub (a b : RValueS) : RValueS := binarySugar BinaryOp.Minus a b

/-- Rust `impl Mul for RValue` (src/src/rvalue.rs 83). -/
def RValueS.mul (a b : RValueS) : RValueS := binarySugar BinaryOp.Mult a b

/-- Rust `impl Div for RValue` (src/src/rvalue.rs 84). -/
def RValueS.div (a b : RValueS) : RValueS := binarySugar BinaryOp.Divide a b

/-- Rust `impl Rem for RValue` (src/src/rvalue.rs 85). -/
def RValueS.rem (a b : RValueS) : RValueS := binarySugar BinaryOp.Modulo a b

/-- Rust `impl BitAnd for RValue` (src/src/rvalue.rs 86). -/
def RValueS.bitand (a b : RValueS) : RValueS := binarySugar BinaryOp.BitwiseAnd a b

/-- Rust `impl BitOr for RValue` (src/src/rvalue.rs 87). -/
def RValueS.bitor (a b : RValueS) : RValueS := binarySugar BinaryOp.BitwiseOr a b

/-- Rust `impl BitXor for RValue` (src/src/rvalue.rs 88). -/
def RValueS.bitxor (a b : RValueS) : RValueS := binarySugar BinaryOp.BitwiseXor a b

/-- Rust `impl Shl for RValue` (src/src/rvalue.rs 89). -/
def RValueS.shl (a b : RValueS) : RValueS := binarySugar BinaryOp.LShift a b

/-- Rust `impl Shr for RValue` (src/src/rvalue.rs 90). -/
def RValueS.shr (a b : RValueS) : RValueS := binarySugar BinaryOp.RShift a b

/-- C8: when the two operands share a type, every one of the ten
operator-overload sugar constructions yields a binary-op rvalue whose result
type is that common operand type. -/
theorem sugar_result_type_common (a b : RValueS) (h : a.get_type = b.get_type) :
    (a.add b).get_type = a.get_type
    ∧ (a.sub b).get_type = a.get_type
    ∧ (a.mul b).get_type = a.get_type
    ∧ (a.div b).get_type = a.get_type
    ∧ (a.rem b).get_type = a.get_type
    ∧ (a.bitand b).get_type = a.get_type
    ∧ (a.bitor b).get_type = a.get_type
    ∧ (a.bitxor b).get_type = a.get_type
    ∧ (a.shl b).get_type = a.get_type
    ∧ (a.shr b).get_type = a.get_type := by
  have hty : b.ty = a.ty := h.symm
  simp [RValueS.add, RValueS.sub, RValueS.mul, RValueS.div, RValueS.rem,
    RValueS.bitand, RValueS.bitor, RValueS.bitxor, RValueS.shl, RValueS.shr,
    binarySugar, gccJitContextNewBinaryOp, RValueS.get_type, hty]

/-- Witness for C8: two concrete int-typed operands with equal types; the sum
and the shift both carry the common operand type. -/
theorem sugar_result_type_common_witness :
    (RValueS.add ⟨GType.intT 4 true, RExprS.leaf 0⟩ ⟨GType.intT 4 true, RExprS.leaf 1⟩).get_type
      = GType.intT 4 true
    ∧ (RValueS.shr ⟨GType.intT 4 true, RExprS.leaf 0⟩ ⟨GType.intT 4 true, RExprS.leaf 1⟩).get_type
      = GType.intT 4 true := by
  have h := sugar_result_type_common ⟨GType.intT 4 true, RExprS.leaf 0⟩
    ⟨GType.intT 4 true, RExprS.leaf 1⟩ rfl
  exact ⟨h.1, h.2.2.2.2.2.2.2.2.2⟩

/-! Load coercion and address-of (C6).  Functions of the binding whose Rust
body can panic are embedded with an `Except String` result; the four
operations below have no unwrap, no panic and no error branch in their
source, so their embeddings construct an `Except.ok` on every path. -/

/-- Handle to a source Location (src/src/location.rs 10-13). -/
structure LocationH where
  ptr : Nat

/-- Backend node counter: fresh rvalue nodes handed out by the context
arena are numbered consecutively. -/
structure NodeArena where
  next : Nat

/-- Modelled from the spec: backend `gcc_jit_lvalue_as_rvalue` is the upcast
of the very same IR object (an lvalue is-an rvalue), returning the same
pointer; it cannot fail. -/
def gccJitLvalueAsRvalue (p : Nat) : Nat := p

/-- Modelled from the spec: backend `gcc_jit_lvalue_get_address` always
builds a fresh address-of rvalue node for the lvalue; it cannot fail. -/
def gccJitLvalueGetAddress (a : NodeArena) (l : LValueH) (loc : Option LocationH) :
    NodeArena × RValueH :=
  ({ next := a.next + 1 }, { ptr := a.next })

/-- Modelled from the spec: backend `gcc_jit_param_as_rvalue` is the upcast
of the same IR object; it cannot fail. -/
def gccJitParamAsRvalue (p : Nat) : Nat := p

/-- Modelled from the spec: backend `gcc_jit_param_as_lvalue` is the upcast
of the same IR object; it cannot fail. -/
def gccJitParamAsLvalue (p : Nat) : Nat := p

/-- Rust `impl ToRValue for LValue` (src/src/lvalue.rs 52-59): calls
`gcc_jit_lvalue_as_rvalue` and wraps the pointer; no failing branch. -/
def LValueH.to_rvalue (l : LValueH) : Except String RValueH :=
  Except.ok { ptr := gccJitLvalueAsRvalue l.ptr }

/-- Rust `LValue::get_address` (src/src/lvalue.rs 80-91): encodes the optional
location as a possibly NULL pointer, calls `gcc_jit_lvalue_get_address` and
wraps the result; no failing branch. -/
def LValueH.get_address (a : NodeArena) (l : LValueH) (loc : Option LocationH) :
    Except String (NodeArena × RValueH) :=
  Except.ok (gccJitLvalueGetAddress a l loc)

/-- Rust `impl ToRValue for Parameter` (src/src/parameter.rs 35-42): calls
`gcc_jit_param_as_rvalue` and wraps the pointer; no failing branch. -/
def ParameterH.to_rvalue (p : ParameterH) : Except String RValueH :=
  Except.ok { ptr := gccJitParamAsRvalue p.ptr }

/-- Rust `impl ToLValue for Parameter` (src/src/parameter.rs 44-51): calls
`gcc_jit_param_as_lvalue` and wraps the pointer; no failing branch. -/
def ParameterH.to_lvalue (p : ParameterH) : Except String LValueH :=
  Except.ok { ptr := gccJitParamAsLvalue p.ptr }

/-- C6: for every LValue (and Parameter) the coercion to RValue always
succeeds with an RValue, `get_address` always succeeds with an RValue, and
none of these operations has an error case for any input. -/
theorem lvalue_coercions_total (l : LValueH) (a : NodeArena) (loc : Option LocationH)
    (p : ParameterH) :
    (∃ r : RValueH, l.to_rvalue = Except.ok r)
    ∧ (∃ ar : NodeArena × RValueH, LValueH.get_address a l loc = Except.ok ar)
    ∧ (∃ r : RValueH, p.to_rvalue = Except.ok r)
    ∧ (∃ lv : LValueH, p.to_lvalue = Except.ok lv)
    ∧ (∀ e : String, l.to_rvalue ≠ Except.error e)
    ∧ (∀ e : String, LValueH.get_address a l loc ≠ Except.error e)
    ∧ (∀ e : String, p.to_rvalue ≠ Except.error e)
    ∧ (∀ e : String, p.to_lvalue ≠ Except.error e) := by
  refine ⟨⟨_, rfl⟩, ⟨_, rfl⟩, ⟨_, rfl⟩, ⟨_, rfl⟩, ?_, ?_, ?_, ?_⟩ <;>
    intro e <;>
    simp [LValueH.to_rvalue, LValueH.get_address, ParameterH.to_rvalue, ParameterH.to_lvalue]

/-! Read-modify-write equivalence (C4).  A Block accumulates statements in
order; the two statement constructors relevant to the claim are direct
assignment (`Block::add_assignment`) and compound assignment
(`Block::add_assignment_op`).  Rvalue expressions are evaluated against a
store mapping lvalue handles to integers; the meaning of each of the twelve
binary operations is an arbitrary parameter `denote`, so the equivalence
holds for every interpretation the backend might give them. -/

/-- Rvalue expression as referenced by block statements: a literal, the
rvalue coercion of an lvalue (a load), or a binary operation node. -/
inductive RExpr
  | lit (n : Int)
  | load (lv : Nat)
  | binop (op : BinaryOp) (ty : GType) (lhs rhs : RExpr)

/-- Evaluation of an rvalue expression against a store.  Modelled from the
spec: an lvalue coerced to rvalue reads the lvalue's current value. -/
def evalExpr (denote : BinaryOp → Int → Int → Int) (σ : Nat → Int) : RExpr → Int
  | .lit n => n
  | .load lv => σ lv
  | .binop op _ lhs rhs => denote op (evalExpr denote σ lhs) (evalExpr denote σ rhs)

/-- Non-terminating block statements relevant to the claim, as emitted by
`gcc_jit_block_add_assignment` and `gcc_jit_block_add_assignment_op`. -/
inductive Stmt
  | assign (target : Nat) (value : RExpr)
  | assignOp (target : Nat) (op : BinaryOp) (value : RExpr)

/-- Modelled from the spec: execution of one statement over the store.
`assign` stores the evaluated rvalue into the target; `assignOp` is the
backend's compound assignment `target op= value` (C `+=` family): it reads
the target's current value, combines it with the evaluated rvalue and
stores the result back. -/
def execStmt (denote : BinaryOp → Int → Int → Int) (s : Stmt) (σ : Nat → Int) : Nat → Int :=
  match s with
  | .assign target value =>
      fun x => if x = target then evalExpr denote σ value else σ x
  | .assignOp target op value =>
      fun x => if x = target then denote op (σ target) (evalExpr denote σ value) else σ x

/-- Execution of a block: statements run in order over the store. -/
def execBlock (denote : BinaryOp → Int → Int → Int) (blk : List Stmt) (σ : Nat → Int) :
    Nat → Int :=
  blk.foldl (fun τ s => execStmt denote s τ) σ

/-- Rust `Block::add_assignment` (src/src/block.rs 127-148): appends a direct
assignment statement to the block (the optional location is metadata only). -/
def addAssignment (blk : List Stmt) (loc : Option LocationH) (target : Nat) (value : RExpr) :
    List Stmt :=
  blk ++ [Stmt.assign target value]

/-- Rust `Block::add_assignment_op` (src/src/block.rs 153-171): appends a
compound-assignment statement to the block. -/
def addAssignmentOp (blk : List Stmt) (loc : Option LocationH) (target : Nat)
    (op : BinaryOp) (value : RExpr) : List Stmt :=
  blk ++ [Stmt.assignOp target op value]

/-- Rust `Context::new_binary_op` (src/src/context.rs 520-545): builds a
binary-operation rvalue expression with an explicit result type. -/
def newBinaryOp (loc : Option LocationH) (op : BinaryOp) (ty : GType) (lhs rhs : RExpr) :
    RExpr :=
  RExpr.binop op ty lhs rhs

/-- Coercion of an lvalue handle to an rvalue expression (load semantics),
the `to_rvalue` of src/src/lvalue.rs 52-59 at the expression level. -/
def lvalueAsRExpr (lv : Nat) : RExpr :=
  RExpr.load lv

/-- C4: appending `add_assignment_op(loc, t, op, v)` to any block has the same
observable store semantics as first building `new_binary_op(op, ty, t as
rvalue, v)` and storing it back with `add_assignment`, for every store, every
interpretation of the binary operations, and every result type. -/
theorem add_assignment_op_equiv (denote : BinaryOp → Int → Int → Int) (blk : List Stmt)
    (loc : Option LocationH) (t : Nat) (op : BinaryOp) (v : RExpr) (ty : GType)
    (σ : Nat → Int) :
    execBlock denote (addAssignmentOp blk loc t op v) σ
      = execBlock denote (addAssignment blk loc t (newBinaryOp loc op ty (lvalueAsRExpr t) v)) σ := by
  simp only [addAssignmentOp, addAssignment, execBlock, List.foldl_append, List.foldl_cons,
    List.foldl_nil]
  funext x
  simp [execStmt, newBinaryOp, lvalueAsRExpr, evalExpr]

/-! Compiled-artifact symbol resolution (C1).  `CompileResult::get_function`
and `get_global` (src/src/context.rs 75-107) convert the requested name to a
C string (an unchecked unwrap) and hand it to the backend lookup, returning
the raw address unchanged.  The backend lookup is NULL exactly for names that
were not compiled into the artifact, and only Exported symbols are. -/

/-- Predicate on host strings: does the string contain a NUL byte?  Rust
`&str` may, C strings may not. -/
def hasNulByte (s : String) : Bool :=
  s.data.any (fun c => c.toNat == 0)

/-- Rust `CString::new` (std): fails exactly when the host string contains a
NUL byte; otherwise the same bytes are handed on, NUL-terminated. -/
def cStringNew (s : String) : Option String :=
  if hasNulByte s then none else some s

/-- FunctionType from src/src/function.rs 27-41. -/
inductive FunctionType
  | Exported
  | Internal
  | Extern
  | AlwaysInline
deriving DecidableEq

/-- GlobalKind from src/src/context.rs 28-32. -/
inductive GlobalKind
  | Exported
  | Internal
  | Imported
deriving DecidableEq

/-- A function registered on a Context via `new_function`: its name, kind,
and the machine address its compiled body would occupy. -/
structure FnDecl where
  name : String
  kind : FunctionType
  addr : Nat
deriving DecidableEq

/-- A global registered on a Context via `new_global`. -/
structure GlobalDecl where
  name : String
  kind : GlobalKind
  addr : Nat
deriving DecidableEq

/-- Rust `CompileResult` (src/src/context.rs 71-73): the compiled artifact,
with the backend's name-to-address tables for code and globals. -/
structure CompileResult where
  code : List (String × Nat)
  globals : List (String × Nat)

/-- Modelled from the spec: backend `gcc_jit_result_get_code` looks the name
up in the artifact's code table and returns NULL (0) when it is absent. -/
def gccJitResultGetCode (res : CompileResult) (name : String) : Nat :=
  match res.code.lookup name with
  | some addr => addr
  | none => 0

/-- Modelled from the spec: backend `gcc_jit_result_get_global` looks the
name up in the artifact's global table and returns NULL (0) when absent. -/
def gccJitResultGetGlobal (res : CompileResult) (name : String) : Nat :=
  match res.globals.lookup name with
  | some addr => addr
  | none => 0

/-- Rust `CompileResult::get_function` (src/src/context.rs 85-92):
`CString::new(name).unwrap()` then the raw backend lookup, transmuted and
returned unchanged.  The unwrap is the only failing branch. -/
def CompileResult.get_function (res : CompileResult) (name : String) : Except String Nat :=
  match cStringNew name with
  | none => Except.error "NulError"
  | some cstr => Except.ok (gccJitResultGetCode res cstr)

/-- Rust `CompileResult::get_global` (src/src/context.rs 100-106). -/
def CompileResult.get_global (res : CompileResult) (name : String) : Except String Nat :=
  match cStringNew name with
  | none => Except.error "NulError"
  | some cstr => Except.ok (gccJitResultGetGlobal res cstr)

/-- Modelled from the spec: `Context::compile` hands the registered IR to the
backend; only functions registered Exported and globals registered Exported
become name-resolvable in the resulting artifact. -/
def contextCompile (fns : List FnDecl) (globs : List GlobalDecl) : CompileResult :=
  { code := (fns.filter (fun f => f.kind == FunctionType.Exported)).map
      (fun f => (f.name, f.addr)),
    globals := (globs.filter (fun g => g.kind == GlobalKind.Exported)).map
      (fun g => (g.name, g.addr)) }

/-- The NULL check a caller performs on the raw result, `ptr.is_null()` in
the Rust examples and tests. -/
def isNull (p : Nat) : Bool :=
  p == 0

/-- Lookup misses entirely in a filtered-and-projected table when every entry
carrying the requested name fails the filter. -/
theorem lookup_filter_map_none {α : Type} (l : List α) (keyf : α → String) (valf : α → Nat)
    (pred : α → Bool) (name : String)
    (h : ∀ x ∈ l, keyf x = name → pred x = false) :
    ((l.filter pred).map (fun x => (keyf x, valf x))).lookup name = none := by
  induction l with
  | nil => rfl
  | cons x rest ih =>
      have hrest : ∀ y ∈ rest, keyf y = name → pred y = false := by
        intro y hy
        exact h y (List.mem_cons_of_mem x hy)
      by_cases hp : pred x = true
      · have hne : ¬(name = keyf x) := by
          intro he
          have := h x (List.mem_cons_self x rest) he.symm
          simp [hp] at this
        simp only [List.filter_cons, hp, if_true, List.map_cons, List.lookup]
        have : (name == keyf x) = false := by
          exact beq_false_of_ne hne
        simp [this, ih hrest]
      · have hp2 : pred x = false := by
          simpa using hp
        simp [List.filter_cons, hp2, ih hrest]

/-- C1: requesting a function or global by a (NUL-free) name that was never
registered Exported yields the explicit NULL absent-value: the caller's
`is_null` check recognises it, and it is distinct from the address of every
function or global actually compiled into the artifact, so it can never be
confused with an invokable pointer. -/
theorem get_function_absent_is_null (fns : List FnDecl) (globs : List GlobalDecl)
    (name : String)
    (hwfF : ∀ f ∈ fns, f.addr ≠ 0) (hwfG : ∀ g ∈ globs, g.addr ≠ 0)
    (hnul : hasNulByte name = false)
    (hf : ∀ f ∈ fns, f.name = name → f.kind ≠ FunctionType.Exported)
    (hg : ∀ g ∈ globs, g.name = name → g.kind ≠ GlobalKind.Exported) :
    (contextCompile fns globs).get_function name = Except.ok 0
    ∧ (contextCompile fns globs).get_global name = Except.ok 0
    ∧ isNull 0 = true
    ∧ (∀ pr ∈ (contextCompile fns globs).code, pr.2 ≠ 0)
    ∧ (∀ pr ∈ (contextCompile fns globs).globals, pr.2 ≠ 0) := by
  have hlf : ((fns.filter (fun f => f.kind == FunctionType.Exported)).map
      (fun f => (f.name, f.addr))).lookup name = none := by
    refine lookup_filter_map_none fns (fun f => f.name) (fun f => f.addr) _ name ?_
    intro f hmem hname
    have := hf f hmem hname
    simp [this]
  have hlg : ((globs.filter (fun g => g.kind == GlobalKind.Exported)).map
      (fun g => (g.name, g.addr))).lookup name = none := by
    refine lookup_filter_map_none globs (fun g => g.name) (fun g => g.addr) _ name ?_
    intro g hmem hname
    have := hg g hmem hname
    simp [this]
  refine ⟨?_, ?_, rfl, ?_, ?_⟩
  · simp [CompileResult.get_function, cStringNew, hnul, gccJitResultGetCode,
      contextCompile, hlf]
  · simp [CompileResult.get_global, cStringNew, hnul, gccJitResultGetGlobal,
      contextCompile, hlg]
  · intro pr hpr
    simp only [contextCompile, List.mem_map, List.mem_filter] at hpr
    obtain ⟨f, ⟨hfm, _⟩, hpe⟩ := hpr
    subst hpe
    exact hwfF f hfm
  · intro pr hpr
    simp only [contextCompile, List.mem_map, List.mem_filter] at hpr
    obtain ⟨g, ⟨hgm, _⟩, hpe⟩ := hpr
    subst hpe
    exact hwfG g hgm

/-- Witness for C1: a context with one Internal function and one Imported
global; resolving the name "bf_main", which was never marked Exported,
yields the NULL absent-value through both lookups. -/
theorem get_function_absent_is_null_witness :
    (contextCompile [⟨"helper", FunctionType.Internal, 5⟩]
        [⟨"counter", GlobalKind.Imported, 7⟩]).get_function "bf_main" = Except.ok 0
    ∧ (contextCompile [⟨"helper", FunctionType.Internal, 5⟩]
        [⟨"counter", GlobalKind.Imported, 7⟩]).get_global "bf_main" = Except.ok 0 := by
  have h := get_function_absent_is_null [⟨"helper", FunctionType.Internal, 5⟩]
    [⟨"counter", GlobalKind.Imported, 7⟩] "bf_main"
    (by decide) (by decide) (by decide) (by decide) (by decide)
  exact ⟨h.1, h.2.1⟩

/-! Opaque struct filling (C2).  `Struct::set_fields` (src/src/structs.rs
32-53) forwards to `gcc_jit_struct_set_fields` and then, in a debug build
only, polls the owning context's last-error query and panics on a non-empty
answer.  The context error state is latched: once the backend records an
error it stays visible to every later poll. -/

/-- Error state of a gccjit context: the most recent backend diagnostic, or
none (`gcc_jit_context_get_last_error`). -/
structure CtxErrState where
  lastError : Option String
deriving DecidableEq

/-- Backend-side state of one struct type: `none` while opaque, `some`
fields once a layout is set.  Field handles are embedded as naturals. -/
structure StructState where
  fields : Option (List Nat)
deriving DecidableEq

/-- Diagnostic the backend records when `set_fields` is applied to a struct
whose layout is already set. -/
def structAlreadySetMsg : String :=
  "gcc_jit_struct_set_fields: layout already set"

/-- Modelled from the spec: backend `gcc_jit_struct_set_fields` installs the
layout on an opaque struct; on a struct that already has fields it records
an API-misuse error on the context and leaves the layout unchanged. -/
def gccJitStructSetFields (ctx : CtxErrState) (s : StructState) (fs : List Nat) :
    CtxErrState × StructState :=
  match s.fields with
  | none => (ctx, { fields := some fs })
  | some _ => ({ lastError := some structAlreadySetMsg }, s)

/-- Modelled from the spec: backend `gcc_jit_struct_get_field_count` returns
the number of fields of the layout (0 while opaque). -/
def gccJitStructGetFieldCount (s : StructState) : Nat :=
  (s.fields.getD []).length

/-- Modelled from the spec: backend `gcc_jit_struct_get_field` returns the
i-th field of the layout in the order the fields were supplied, NULL when
out of range or opaque. -/
def gccJitStructGetField (s : StructState) (i : Nat) : Option Nat :=
  (s.fields.getD [])[i]?

/-- Rust `Struct::set_fields` (src/src/structs.rs 32-53): backend call, then
debug-build-only poll of the context's last error, panicking on some. -/
def structSetFields (dbg : Bool) (ctx : CtxErrState) (s : StructState)
    (loc : Option LocationH) (fs : List Nat) : Except String (CtxErrState × StructState) :=
  let r := gccJitStructSetFields ctx s fs
  if dbg then
    match r.1.lastError with
    | some e => Except.error e
    | none => Except.ok r
  else
    Except.ok r

/-- Rust `Struct::get_field_count` (src/src/structs.rs 71-75): a direct
backend call. -/
def structGetFieldCount (s : StructState) : Nat :=
  gccJitStructGetFieldCount s

/-- Rust `Struct::get_field` (src/src/structs.rs 55-69): backend call, a
debug-build panic when the returned pointer is NULL, then the
debug-build-only error poll.  The release-build NULL case yields the junk
handle `from_ptr(NULL)`, embedded as 0. -/
def structGetField (dbg : Bool) (ctx : CtxErrState) (s : StructState) (i : Nat) :
    Except String Nat :=
  match gccJitStructGetField s i with
  | none => if dbg then Except.error "Null ptr in get_field() from struct" else Except.ok 0
  | some f =>
      if dbg then
        match ctx.lastError with
        | some e => Except.error e
        | none => Except.ok f
      else
        Except.ok f

/-- C2: on an opaque struct of an error-free context (debug build) a first
`set_fields` succeeds, after which the field count equals the input length
and each field is retrievable at its input position; a second `set_fields`
on the same struct is rejected with an error (and the backend leaves the
first layout in place), not silently ignored. -/
theorem set_fields_once (ctx : CtxErrState) (s : StructState) (fs : List Nat)
    (hctx : ctx.lastError = none) (hNoFields : s.fields = none) :
    ∃ ctx1 s1, structSetFields true ctx s none fs = Except.ok (ctx1, s1)
      ∧ s1.fields = some fs
      ∧ structGetFieldCount s1 = fs.length
      ∧ (∀ i f, fs[i]? = some f → structGetField true ctx1 s1 i = Except.ok f)
      ∧ (∀ fs2, structSetFields true ctx1 s1 none fs2 = Except.error structAlreadySetMsg)
      ∧ (∀ fs2, (gccJitStructSetFields ctx1 s1 fs2).2 = s1) := by
  refine ⟨ctx, { fields := some fs }, ?_, rfl, ?_, ?_, ?_, ?_⟩
  · simp [structSetFields, gccJitStructSetFields, hNoFields, hctx]
  · simp [structGetFieldCount, gccJitStructGetFieldCount]
  · intro i f hif
    simp [structGetField, gccJitStructGetField, hif, hctx]
  · intro fs2
    simp [structSetFields, gccJitStructSetFields]
  · intro fs2
    simp [gccJitStructSetFields]

/-- Witness for C2: filling a fresh opaque struct with two fields succeeds,
counts 2, retrieves in order, and a second fill is an error. -/
theorem set_fields_once_witness :
    ∃ ctx1 s1, structSetFields true ⟨none⟩ ⟨none⟩ none [10, 11] = Except.ok (ctx1, s1)
      ∧ s1.fields = some [10, 11]
      ∧ structGetFieldCount s1 = 2
      ∧ (∀ i f, [10, 11][i]? = some f → structGetField true ctx1 s1 i = Except.ok f)
      ∧ (∀ fs2, structSetFields true ctx1 s1 none fs2 = Except.error structAlreadySetMsg)
      ∧ (∀ fs2, (gccJitStructSetFields ctx1 s1 fs2).2 = s1) :=
  set_fields_once ⟨none⟩ ⟨none⟩ [10, 11] rfl rfl

/-! Debug-build error polling (C3).  Some wrapper functions follow their
backend call with a `cfg(debug_assertions)` block that polls
`get_last_error` and panics on a non-empty answer; the others return
without looking.  `ApiCall` enumerates every `new_*` constructor on Context
(src/src/context.rs, with `new_type` split by the three `Typeable` impl
families of src/src/types.rs) and every `add_*`/`end_with_*` on Block
(src/src/block.rs); `runConstructionCall` reproduces, per call, whether the
source contains that debug poll. -/

/-- Enumeration of the IR construction calls the claim ranges over: the
`new_*` methods of Context and the `add_*`/`end_with_*` methods of Block. -/
inductive ApiCall
  | newChildContext
  | newCase
  | newLocation
  | newGlobal
  | newTypePrimitive
  | newTypeIntPrimitive
  | newTypeRawPtr
  | newCType
  | newIntType
  | newField
  | newArrayType
  | newVectorType
  | newStructType
  | newOpaqueStructType
  | newUnionType
  | newFunctionPointerType
  | newFunction
  | newBinaryOp
  | newUnaryOp
  | newComparison
  | newCall
  | newCallThroughPtr
  | newCast
  | newArrayAccess
  | newRvalueFromLong
  | newRvalueFromVector
  | newRvalueFromInt
  | newRvalueFromDouble
  | newRvalueZero
  | newRvalueOne
  | newRvalueFromPtr
  | newNull
  | newStringLiteral
  | newParameter
  | addEval
  | addAssignment
  | addAssignmentOp
  | addComment
  | endWithConditional
  | endWithJump
  | endWithReturn
  | endWithVoidReturn
  | endWithSwitch
  | addExtendedAsm
  | endWithExtendedAsmGoto
deriving DecidableEq

/-- The debug-build poll idiom of the source: under `cfg(debug_assertions)`,
`if let Ok(Some(error)) = ctx.get_last_error() { panic }`. -/
def debugPollLastError (dbg : Bool) (err : Option String) : Except String Unit :=
  if dbg then
    match err with
    | some e => Except.error e
    | none => Except.ok ()
  else
    Except.ok ()

/-- Outcome of one construction call, given the build mode and the context's
last-error answer right after the underlying backend call: each arm records
whether that wrapper's source contains the debug poll (Except.error = the
wrapper panics, failing that build fast). -/
def runConstructionCall (dbg : Bool) (err : Option String) : ApiCall → Except String Unit
  | .newChildContext => Except.ok ()
  | .newCase => Except.ok ()
  | .newLocation => Except.ok ()
  | .newGlobal => Except.ok ()
  | .newTypePrimitive => debugPollLastError dbg err
  | .newTypeIntPrimitive => Except.ok ()
  | .newTypeRawPtr => debugPollLastError dbg err
  | .newCType => Except.ok ()
  | .newIntType => Except.ok ()
  | .newField => Except.ok ()
  | .newArrayType => Except.ok ()
  | .newVectorType => Except.ok ()
  | .newStructType => Except.ok ()
  | .newOpaqueStructType => Except.ok ()
  | .newUnionType => Except.ok ()
  | .newFunctionPointerType => Except.ok ()
  | .newFunction => Except.ok ()
  | .newBinaryOp => debugPollLastError dbg err
  | .newUnaryOp => Except.ok ()
  | .newComparison => debugPollLastError dbg err
  | .newCall => debugPollLastError dbg err
  | .newCallThroughPtr => Except.ok ()
  | .newCast => debugPollLastError dbg err
  | .newArrayAccess => Except.ok ()
  | .newRvalueFromLong => debugPollLastError dbg err
  | .newRvalueFromVector => Except.ok ()
  | .newRvalueFromInt => Except.ok ()
  | .newRvalueFromDouble => Except.ok ()
  | .newRvalueZero => Except.ok ()
  | .newRvalueOne => Except.ok ()
  | .newRvalueFromPtr => Except.ok ()
  | .newNull => debugPollLastError dbg err
  | .newStringLiteral => Except.ok ()
  | .newParameter => Except.ok ()
  | .addEval => debugPollLastError dbg err
  | .addAssignment => debugPollLastError dbg err
  | .addAssignmentOp => Except.ok ()
  | .addComment => Except.ok ()
  | .endWithConditional => debugPollLastError dbg err
  | .endWithJump => Except.ok ()
  | .endWithReturn => debugPollLastError dbg err
  | .endWithVoidReturn => Except.ok ()
  | .endWithSwitch => Except.ok ()
  | .addExtendedAsm => Except.ok ()
  | .endWithExtendedAsmGoto => Except.ok ()

/-- The construction calls whose source does contain the debug-build poll. -/
def pollingCalls : List ApiCall :=
  [.newTypePrimitive, .newTypeRawPtr, .newBinaryOp, .newComparison, .newCall, .newCast,
   .newRvalueFromLong, .newNull, .addEval, .addAssignment, .endWithConditional,
   .endWithReturn]

/-- Counterexample for C3: in a debug build, with a backend error pending
immediately after the underlying call, `new_unary_op` returns normally
instead of failing fast — so not every construction call polls the
last-error query. -/
theorem new_unary_op_does_not_poll :
    runConstructionCall true (some "gcc_jit_context_new_unary_op: invalid operands")
      ApiCall.newUnaryOp = Except.ok () := rfl

/-- C3 (amended): in a debug build a pending backend error is fatal exactly
for the construction calls in `pollingCalls`; an error-free call never
panics, and a release build never fails fast regardless of the error. -/
theorem debug_error_polling_exact (e : String) (c : ApiCall) :
    (runConstructionCall true (some e) c = Except.error e ↔ c ∈ pollingCalls)
    ∧ runConstructionCall true none c = Except.ok ()
    ∧ (∀ err, runConstructionCall false err c = Except.ok ()) := by
  cases c <;>
    simp [runConstructionCall, debugPollLastError, pollingCalls]

/-! Host-string conversion at the API boundary (C10).  `StrApi` enumerates
every public method of the binding that accepts a host string (names, file
paths, comments, asm text, symbol lookups); `strApiRun` reproduces, per
method, how the source converts that string before handing it to the
backend and when the conversion panics. -/

/-- Every public string-accepting method: Context (src/src/context.rs),
CompileResult (src/src/context.rs), Function (src/src/function.rs), Block
(src/src/block.rs) and ExtendedAsm (src/src/asm.rs). -/
inductive StrApi
  | setProgramName
  | addCommandLineOption
  | addDriverOption
  | compileToFile
  | newLocationFile
  | newGlobalName
  | newFieldName
  | newStructTypeName
  | newOpaqueStructTypeName
  | newUnionTypeName
  | newFunctionName
  | newStringLiteral
  | dumpReproducerToFile
  | newParameterName
  | getBuiltinFunction
  | setLogfile
  | addTopLevelAsm
  | getFunction
  | getGlobal
  | dumpToDot
  | newBlock
  | newLocal
  | addComment
  | addExtendedAsm
  | endWithExtendedAsmGoto
  | addOutputOperandConstraint
  | addInputOperandConstraint
  | addClobber
deriving DecidableEq

/-- Rust `CStr::from_bytes_with_nul` success condition: the byte slice is
non-empty, its last byte is NUL, and no earlier byte is NUL. -/
def cStrFromBytesWithNulOk (s : String) : Bool :=
  match s.data.getLast? with
  | some c => (c.toNat == 0) && !(s.data.dropLast.any (fun c2 => c2.toNat == 0))
  | none => false

/-- The dominant conversion idiom of the source:
`CString::new(name.as_ref()).unwrap()`, panicking on an interior NUL and
otherwise passing the bytes through unchanged. -/
def convCStringUnwrap (s : String) : Except String (Option (List Char)) :=
  match cStringNew s with
  | none => Except.error "NulError"
  | some cstr => Except.ok (some cstr.data)

/-- The conversion of `Context::add_top_level_asm` (src/src/context.rs
894-904): `CStr::from_bytes_with_nul(asm_stmts.as_bytes()).expect(...)` —
the caller must supply an explicitly NUL-terminated string; the bytes before
the terminator are handed on. -/
def convCStrExpectNul (s : String) : Except String (Option (List Char)) :=
  if cStrFromBytesWithNulOk s then Except.ok (some s.data.dropLast)
  else Except.error "asm_stmts to cstring"

/-- Per-method conversion behaviour, read off each source body.  The payload
is the byte content handed to the backend (`none` when the method never
passes its string on): `set_logfile` (src/src/context.rs 882-892) ignores
its string argument entirely and hard-codes stderr. -/
def strApiRun : StrApi → String → Except String (Option (List Char))
  | .setProgramName, s => convCStringUnwrap s
  | .addCommandLineOption, s => convCStringUnwrap s
  | .addDriverOption, s => convCStringUnwrap s
  | .compileToFile, s => convCStringUnwrap s
  | .newLocationFile, s => convCStringUnwrap s
  | .newGlobalName, s => convCStringUnwrap s
  | .newFieldName, s => convCStringUnwrap s
  | .newStructTypeName, s => convCStringUnwrap s
  | .newOpaqueStructTypeName, s => convCStringUnwrap s
  | .newUnionTypeName, s => convCStringUnwrap s
  | .newFunctionName, s => convCStringUnwrap s
  | .newStringLiteral, s => convCStringUnwrap s
  | .dumpReproducerToFile, s => convCStringUnwrap s
  | .newParameterName, s => convCStringUnwrap s
  | .getBuiltinFunction, s => convCStringUnwrap s
  | .setLogfile, _ => Except.ok none
  | .addTopLevelAsm, s => convCStrExpectNul s
  | .getFunction, s => convCStringUnwrap s
  | .getGlobal, s => convCStringUnwrap s
  | .dumpToDot, s => convCStringUnwrap s
  | .newBlock, s => convCStringUnwrap s
  | .newLocal, s => convCStringUnwrap s
  | .addComment, s => convCStringUnwrap s
  | .addExtendedAsm, s => convCStringUnwrap s
  | .endWithExtendedAsmGoto, s => convCStringUnwrap s
  | .addOutputOperandConstraint, s => convCStringUnwrap s
  | .addInputOperandConstraint, s => convCStringUnwrap s
  | .addClobber, s => convCStringUnwrap s

/-- Counterexample for C10: `add_top_level_asm` does not use the unchecked
`CString::new` unwrap — on the NUL-free string "nop" it panics (its
`CStr::from_bytes_with_nul` conversion demands a trailing NUL), where the
claim promises NUL-free strings are passed through unchanged. -/
theorem add_top_level_asm_not_cstring_unwrap :
    hasNulByte "nop" = false
    ∧ strApiRun StrApi.addTopLevelAsm "nop" = Except.error "asm_stmts to cstring" := by
  refine ⟨by decide, ?_⟩
  simp [strApiRun, convCStrExpectNul, cStrFromBytesWithNulOk]

/-- Behaviour of `convCStringUnwrap` on both sides of the interior-NUL
split. -/
theorem convCStringUnwrap_spec (s : String) :
    (hasNulByte s = true → convCStringUnwrap s = Except.error "NulError")
    ∧ (hasNulByte s = false → convCStringUnwrap s = Except.ok (some s.data)) := by
  constructor <;> intro h <;> simp [convCStringUnwrap, cStringNew, h]

/-- C10 (amended): every public string-accepting method except
`add_top_level_asm` and `set_logfile` converts with the unchecked
`CString::new` unwrap — panicking exactly when the string contains a NUL
byte and otherwise passing the bytes through unchanged; `set_logfile`
ignores its string and never panics; `add_top_level_asm` instead demands an
explicitly NUL-terminated string, handing on the bytes before the
terminator and panicking otherwise. -/
theorem string_conversion_characterization (api : StrApi) (s : String) :
    (api ≠ StrApi.addTopLevelAsm → api ≠ StrApi.setLogfile →
      ((hasNulByte s = true → strApiRun api s = Except.error "NulError")
       ∧ (hasNulByte s = false → strApiRun api s = Except.ok (some s.data))))
    ∧ strApiRun StrApi.setLogfile s = Except.ok none
    ∧ strApiRun StrApi.addTopLevelAsm s =
        (if cStrFromBytesWithNulOk s then Except.ok (some s.data.dropLast)
         else Except.error "asm_stmts to cstring") := by
  refine ⟨?_, rfl, ?_⟩
  · cases api <;>
      first
        | exact fun h _ => absurd rfl h
        | exact fun _ h => absurd rfl h
        | exact fun _ _ => convCStringUnwrap_spec s
  · simp [strApiRun, convCStrExpectNul]

/-- Witness for C10 (amended): the symbol-lookup method passes the NUL-free
name "bf_main" through unchanged, and `set_logfile` ignores its string. -/
theorem string_conversion_characterization_witness :
    strApiRun StrApi.getFunction "bf_main" = Except.ok (some "bf_main".data)
    ∧ strApiRun StrApi.setLogfile "log" = Except.ok none :=
  ⟨((string_conversion_characterization StrApi.getFunction "bf_main").1
      (by decide) (by decide)).2 (by decide),
   (string_conversion_characterization StrApi.setLogfile "log").2.1⟩

/-! Bracket-matched block building (C7).  The brainfuck example
(src/examples/brainfuck/src/main.rs) drives the Block API with a
caller-maintained stack of (condition-block, exit-block) pairs: each `[`
creates three blocks (condition, body, exit), ends the condition block with
a conditional branch, and pushes the pair; each `]` pops.  A pop from the
empty stack, or a non-empty stack at the end of the op list, makes `codegen`
return false, and `main` panics before ever calling `compile()`.  Blocks are
identified by the names `new_block` is given; the statements emitted into
the current block do not influence the stack discipline or the return value
and are not tracked here. -/

/-- Brainfuck operations, `enum Op` of src/examples/brainfuck/src/main.rs
10-20. -/
inductive Op
  | inc
  | dec
  | shiftLeft
  | shiftRight
  | branchLeft
  | branchRight
  | input
  | output

/-- The loop state of `codegen` (src/examples/brainfuck/src/main.rs
107-184): the `block_stack` of (condition-block, exit-block) pairs, the
`blocks` name counter, the block currently being filled, and the blocks that
have been ended with a conditional branch. -/
structure CGState where
  blockStack : List (String × String)
  blocks : Nat
  currentBlock : String
  condBlocks : List String

/-- The `Op::BranchLeft` arm (src/examples/brainfuck/src/main.rs 133-161):
creates the condition, body and exit blocks named from the counter, ends the
current block with a jump to the condition block, ends the condition block
with a conditional branch, pushes (condition, exit) and continues in the
body block. -/
def openBracket (st : CGState) : CGState :=
  { blockStack := ("block" ++ toString st.blocks, "block" ++ toString (st.blocks + 2))
      :: st.blockStack,
    blocks := st.blocks + 3,
    currentBlock := "block" ++ toString (st.blocks + 1),
    condBlocks := st.condBlocks ++ ["block" ++ toString st.blocks] }

/-- One iteration of the op loop of `codegen`: `none` is the `return false`
taken when `Op::BranchRight` finds the stack empty; every other op yields
the next state. -/
def stepOp (st : CGState) : Op → Option CGState
  | .inc => some st
  | .dec => some st
  | .shiftLeft => some st
  | .shiftRight => some st
  | .branchLeft => some (openBracket st)
  | .branchRight =>
      match st.blockStack with
      | [] => none
      | (_, nextBlock) :: rest =>
          some { st with blockStack := rest, currentBlock := nextBlock }
  | .input => some st
  | .output => some st

/-- The op loop of `codegen`, propagating the early `return false`. -/
def codegenLoop : List Op → CGState → Option CGState
  | [], st => some st
  | op :: rest, st =>
      match stepOp st op with
      | none => none
      | some st2 => codegenLoop rest st2

/-- State of `codegen` as the op loop starts: empty stack, counter zero,
filling the entry block, no conditional block ended yet. -/
def initCGState : CGState :=
  { blockStack := [], blocks := 0, currentBlock := "entry_block", condBlocks := [] }

/-- Rust `codegen` (src/examples/brainfuck/src/main.rs 66-192): false when a
close bracket pops an empty stack, false when opens are left unmatched at
the end, true otherwise (the final block then gets its void return). -/
def codegen (ops : List Op) : Bool :=
  match codegenLoop ops initCGState with
  | none => false
  | some st => st.blockStack.isEmpty

/-- Number of condition blocks `codegen` created: blocks ended with a
conditional branch. -/
def condBlocksCreated (ops : List Op) : Nat :=
  match codegenLoop ops initCGState with
  | none => 0
  | some st => st.condBlocks.length

/-- Outcome of running `main`: either a panic raised before `compile()` was
ever invoked, or a run that did reach the backend. -/
inductive MainOutcome
  | buildFailure (msg : String)
  | compiledAndRan

/-- Rust `main` (src/examples/brainfuck/src/main.rs 22-44): when `codegen`
reports failure, it panics "unbalanced brackets" before `context.compile()`;
otherwise compilation proceeds. -/
def mainModel (ops : List Op) : MainOutcome :=
  if codegen ops then MainOutcome.compiledAndRan
  else MainOutcome.buildFailure "unbalanced brackets"

/-- Balance of a bracket sequence relative to a starting depth: no close
below depth zero and depth zero at the end. -/
def depthOk : List Op → Nat → Bool
  | [], d => d == 0
  | .branchLeft :: rest, d => depthOk rest (d + 1)
  | .branchRight :: rest, d =>
      match d with
      | 0 => false
      | d2 + 1 => depthOk rest d2
  | _ :: rest, d => depthOk rest d

/-- A balanced op sequence: brackets match with nothing left over. -/
def balanced (ops : List Op) : Bool :=
  depthOk ops 0

/-- Number of open brackets, which for a balanced sequence is the number of
bracket pairs. -/
def countOpens : List Op → Nat
  | [] => 0
  | .branchLeft :: rest => countOpens rest + 1
  | _ :: rest => countOpens rest

/-- When the remaining ops are balanced relative to the current stack depth,
the op loop runs to completion, drains the stack, and ends one conditional
block per open bracket processed. -/
theorem codegenLoop_of_depthOk (ops : List Op) :
    ∀ st : CGState, depthOk ops st.blockStack.length = true →
    ∃ st2, codegenLoop ops st = some st2 ∧ st2.blockStack = []
      ∧ st2.condBlocks.length = st.condBlocks.length + countOpens ops := by
  induction ops with
  | nil =>
      intro st h
      refine ⟨st, rfl, ?_, by simp [countOpens]⟩
      have hlen : st.blockStack.length = 0 := by simpa [depthOk] using h
      exact List.length_eq_zero.mp hlen
  | cons op rest ih =>
      intro st h
      cases op
      case branchLeft =>
        have hlen : (openBracket st).blockStack.length = st.blockStack.length + 1 := by
          simp [openBracket]
        have hd : depthOk rest (openBracket st).blockStack.length = true := by
          rw [hlen]
          simpa [depthOk] using h
        obtain ⟨st2, h1, h2, h3⟩ := ih (openBracket st) hd
        refine ⟨st2, by simpa [codegenLoop, stepOp] using h1, h2, ?_⟩
        rw [h3]
        simp only [openBracket, List.length_append, List.length_cons, List.length_nil,
          countOpens]
        omega
      case branchRight =>
        cases hstack : st.blockStack with
        | nil =>
            exfalso
            rw [List.length_eq_zero.mpr hstack] at h
            simp [depthOk] at h
        | cons pr tail =>
            obtain ⟨c, nb⟩ := pr
            have hd : depthOk rest tail.length = true := by
              have hl : st.blockStack.length = tail.length + 1 := by
                rw [hstack]; simp
              rw [hl] at h
              simpa [depthOk] using h
            obtain ⟨st2, h1, h2, h3⟩ :=
              ih { st with blockStack := tail, currentBlock := nb } (by simpa using hd)
            refine ⟨st2, ?_, h2, by simpa [countOpens] using h3⟩
            simp only [codegenLoop, stepOp, hstack]
            exact h1
      all_goals
        obtain ⟨st2, h1, h2, h3⟩ := ih st (by simpa [depthOk] using h)
        exact ⟨st2, by simpa [codegenLoop, stepOp] using h1, h2,
          by simpa [countOpens] using h3⟩

/-- When the op loop runs to completion and ends with an empty stack, the
ops were balanced relative to the starting stack depth. -/
theorem depthOk_of_codegenLoop (ops : List Op) :
    ∀ st st2 : CGState, codegenLoop ops st = some st2 → st2.blockStack = [] →
    depthOk ops st.blockStack.length = true := by
  induction ops with
  | nil =>
      intro st st2 h he
      have : st = st2 := by simpa [codegenLoop] using h
      subst this
      rw [List.length_eq_zero.mpr he]
      simp [depthOk]
  | cons op rest ih =>
      intro st st2 h he
      cases op
      case branchLeft =>
        have h1 : codegenLoop rest (openBracket st) = some st2 := by
          simpa [codegenLoop, stepOp] using h
        have := ih (openBracket st) st2 h1 he
        have hlen : (openBracket st).blockStack.length = st.blockStack.length + 1 := by
          simp [openBracket]
        rw [hlen] at this
        simpa [depthOk] using this
      case branchRight =>
        cases hstack : st.blockStack with
        | nil =>
            exfalso
            rw [codegenLoop] at h
            simp [stepOp, hstack] at h
        | cons pr tail =>
            obtain ⟨c, nb⟩ := pr
            have h1 : codegenLoop rest { st with blockStack := tail, currentBlock := nb }
                = some st2 := by
              rw [codegenLoop] at h
              simpa [stepOp, hstack] using h
            have := ih { st with blockStack := tail, currentBlock := nb } st2 h1 he
            have h2 : depthOk rest tail.length = true := by simpa using this
            simpa [depthOk] using h2
      all_goals
        have h1 : codegenLoop rest st = some st2 := by
          simpa [codegenLoop, stepOp] using h
        have := ih st st2 h1 he
        simpa [depthOk] using this

/-- C7: a balanced op sequence makes `codegen` succeed with exactly one
condition block per bracket pair and lets `main` reach compilation; an
unbalanced sequence (a close bracket meeting an empty stack, or leftover
opens) makes `codegen` report failure and makes `main` panic before any
`compile()` call, never reaching the backend. -/
theorem brainfuck_bracket_matching (ops : List Op) :
    (balanced ops = true →
      codegen ops = true ∧ condBlocksCreated ops = countOpens ops
      ∧ mainModel ops = MainOutcome.compiledAndRan)
    ∧ (balanced ops = false →
      codegen ops = false
      ∧ mainModel ops = MainOutcome.buildFailure "unbalanced brackets") := by
  constructor
  · intro hb
    have hd : depthOk ops initCGState.blockStack.length = true := by
      simpa [initCGState, balanced] using hb
    obtain ⟨st2, h1, h2, h3⟩ := codegenLoop_of_depthOk ops initCGState hd
    have hc : codegen ops = true := by
      simp [codegen, h1, h2]
    refine ⟨hc, ?_, by simp [mainModel, hc]⟩
    simp only [condBlocksCreated, h1]
    simpa [initCGState] using h3
  · intro hb
    have hc : codegen ops = false := by
      cases hcl : codegenLoop ops initCGState with
      | none => simp [codegen, hcl]
      | some st2 =>
          cases hemp : st2.blockStack with
          | nil =>
              exfalso
              have := depthOk_of_codegenLoop ops initCGState st2 hcl hemp
              rw [show initCGState.blockStack.length = 0 from rfl] at this
              rw [balanced] at hb
              rw [this] at hb
              simp at hb
          | cons pr tail =>
              simp [codegen, hcl, hemp]
    exact ⟨hc, by simp [mainModel, hc]⟩

/-- Witness for C7: the balanced program `[+]` succeeds with one condition
block and reaches compilation; the lone close bracket `]` is rejected before
compilation. -/
theorem brainfuck_bracket_matching_witness :
    (codegen [Op.branchLeft, Op.inc, Op.branchRight] = true
      ∧ condBlocksCreated [Op.branchLeft, Op.inc, Op.branchRight]
          = countOpens [Op.branchLeft, Op.inc, Op.branchRight]
      ∧ mainModel [Op.branchLeft, Op.inc, Op.branchRight] = MainOutcome.compiledAndRan)
    ∧ (codegen [Op.branchRight] = false
      ∧ mainModel [Op.branchRight] = MainOutcome.buildFailure "unbalanced brackets") :=
  ⟨(brainfuck_bracket_matching [Op.branchLeft, Op.inc, Op.branchRight]).1 (by rfl),
   (brainfuck_bracket_matching [Op.branchRight]).2 (by rfl)⟩

end GccjitProof
